import Mathlib

/-
Verification of the builder repository (src/builder/builder.py): a factory of
build-toolchain wrappers (ndk-build and CMake with several generators).
The Python classes are embedded shallowly: the process environment is a
function from variable names to optional values, the filesystem is the list
of existing paths, fallible construction returns Except, and a `build` call
returns the (unchanged) builder state together with the list of command
lines it issues, in order.
-/

namespace BuilderSpec

/-- Platform selector modelling Python's sys.platform test: the source only
distinguishes "win32" from everything else. -/
inductive Platform where
  | win32
  | posix
deriving DecidableEq

/-- Process environment: os.environ.get returns the value or None. -/
abbrev Env := String → Option String

/-- Filesystem model: the list of paths that exist.  Path.exists() is
membership in this list. -/
abbrev FS := List String

/-- Membership test for the filesystem model (Path.exists()). -/
def fsExists (fs : FS) (p : String) : Bool :=
  match fs with
  | [] => false
  | q :: r => (q == p) || fsExists r p

/-- Models str(pathlib.Path(a) / b) for a relative component b: the two
pieces joined with exactly one "/" separator (none is doubled when the left
piece already ends in one). -/
def pathJoin (a b : String) : String :=
  if a.data.getLast? = some '/' then a ++ b else a ++ "/" ++ b

/-- The errors the source raises during construction: EnvironmentError,
FileNotFoundError, ValueError, each carrying its message. -/
inductive BuildError where
  | environmentError (msg : String)
  | fileNotFoundError (msg : String)
  | valueError (msg : String)
deriving DecidableEq

/-- State of NdkBuilder: the build directory (from BuilderImpl) and the
resolved ndk-build command computed in __init__. -/
structure NdkBuilder where
  build_dir : String
  build_cmd : List String
deriving DecidableEq

/-- Shared state of CMakeBuilder and its subclasses: build directory plus the
configure and build command lines computed in __init__. -/
structure CMakeBuilder where
  build_dir : String
  config_cmd : List String
  build_cmd : List String
deriving DecidableEq

/-- A constructed builder: one constructor per concrete Python class. -/
inductive Builder where
  | ndk (b : NdkBuilder)
  | msvc (b : CMakeBuilder)
  | mingw (b : CMakeBuilder)
  | clang (b : CMakeBuilder)
  | gcc (b : CMakeBuilder)
  | android (b : CMakeBuilder)
  | ohos (b : CMakeBuilder)
deriving DecidableEq

/-- The build directory held by any builder (BuilderImpl.build_dir). -/
def Builder.buildDir : Builder → String
  | .ndk b => b.build_dir
  | .msvc b => b.build_dir
  | .mingw b => b.build_dir
  | .clang b => b.build_dir
  | .gcc b => b.build_dir
  | .android b => b.build_dir
  | .ohos b => b.build_dir

/-- The CMake state of a builder, when it is a CMake-family variant. -/
def Builder.cmakeState : Builder → Option CMakeBuilder
  | .ndk _ => none
  | .msvc b => some b
  | .mingw b => some b
  | .clang b => some b
  | .gcc b => some b
  | .android b => some b
  | .ohos b => some b

/-- A path is the directory itself or lies strictly below it. -/
def underDir (dir p : String) : Bool :=
  (p == dir) || (dir ++ "/").isPrefixOf p

/-- shutil.rmtree(dir, ignore_errors=True): removes every path that is the
directory or lies below it; total, it never raises. -/
def rmtree (fs : FS) (dir : String) : FS :=
  match fs with
  | [] => []
  | q :: r => if underDir dir q then rmtree r dir else q :: rmtree r dir

/-- A directory exists when some filesystem entry is it or lies below it. -/
def dirExists (fs : FS) (dir : String) : Bool :=
  match fs with
  | [] => false
  | q :: r => underDir dir q || dirExists r dir

/-- BuilderImpl.clean: shutil.rmtree(self.build_dir, ignore_errors=True). -/
def Builder.clean (b : Builder) (fs : FS) : FS :=
  rmtree fs (Builder.buildDir b)

/-- NdkBuilder's resolution of the ndk-build executable path: prefix joined
with the executable name when a truthy prefix is given, else the
ANDROID_NDK environment root joined with it; a missing or empty variable is
an EnvironmentError. -/
def ndkCompilerPath (plat : Platform) (env : Env) (pfx : String) :
    Except BuildError String :=
  let compiler := match plat with
    | .win32 => "ndk-build.cmd"
    | .posix => "ndk-build"
  if pfx ≠ "" then
    .ok (pathJoin pfx compiler)
  else
    match env "ANDROID_NDK" with
    | none => .error (.environmentError "ANDROID_NDK environment variable is not set")
    | some a =>
      if a = "" then
        .error (.environmentError "ANDROID_NDK environment variable is not set")
      else
        .ok (pathJoin a compiler)

/-- NdkBuilder._get_ndk_build_command: resolve the executable, require it to
exist, and return the fixed command tokens. -/
def ndkBuildCmd (plat : Platform) (env : Env) (fs : FS) (build_dir pfx : String) :
    Except BuildError (List String) := do
  let p ← ndkCompilerPath plat env pfx
  if !(fsExists fs p) then
    .error (.fileNotFoundError (p ++ " does not exist"))
  else
    .ok [p, "V=1", "NDK_OUT=" ++ build_dir, "NDK_LIBS_OUT=" ++ build_dir]

/-- NdkBuilder.__init__. -/
def mkNdkBuilder (plat : Platform) (env : Env) (fs : FS) (build_dir pfx : String) :
    Except BuildError NdkBuilder := do
  let cmd ← ndkBuildCmd plat env fs build_dir pfx
  .ok { build_dir := build_dir, build_cmd := cmd }

/-- CMakeBuilder.__init__: base configure and build command lines. -/
def cmakeBase (build_dir : String) : CMakeBuilder :=
  { build_dir := build_dir
    config_cmd := ["cmake", "-B", build_dir]
    build_cmd := ["cmake", "--build", build_dir] }

/-- Common shape of every CMake subclass __init__: build the base state,
compute the variant's extra configure tokens, and append them to the
configure command. -/
def mkCMakeVariant (build_dir : String) (tailE : Except BuildError (List String)) :
    Except BuildError CMakeBuilder := do
  let b := cmakeBase build_dir
  let t ← tailE
  .ok { b with config_cmd := b.config_cmd ++ t }

/-- CMakeWindowsVsMsvcBuilder.__init__: fixed generator tokens, never fails,
takes no compiler prefix. -/
def mkCMakeWindowsVsMsvcBuilder (build_dir : String) : CMakeBuilder :=
  let b := cmakeBase build_dir
  { b with config_cmd := b.config_cmd ++ ["-G", "Visual Studio 17 2022"] }

/-- CMakeWindowsMingwBuilder's resolution of mingw32-make.exe: prefix joined
with the executable, else MinGW root / bin / executable. -/
def mingwMakePath (env : Env) (pfx : String) : Except BuildError String :=
  let make := "mingw32-make.exe"
  if pfx ≠ "" then
    .ok (pathJoin pfx make)
  else
    match env "MinGW" with
    | none => .error (.environmentError "MinGW environment variable is not set")
    | some m =>
      if m = "" then
        .error (.environmentError "MinGW environment variable is not set")
      else
        .ok (pathJoin (pathJoin m "bin") make)

/-- CMakeWindowsMingwBuilder._get_config_cmd. -/
def mingwConfigTail (env : Env) (fs : FS) (pfx : String) :
    Except BuildError (List String) := do
  let mp ← mingwMakePath env pfx
  if !(fsExists fs mp) then
    .error (.fileNotFoundError (mp ++ " does not exist"))
  else
    .ok ["-G", "MinGW Makefiles", "-DCMAKE_MAKE_PROGRAM=" ++ mp]

/-- CMakeWindowsMingwBuilder.__init__. -/
def mkCMakeWindowsMingwBuilder (env : Env) (fs : FS) (build_dir pfx : String) :
    Except BuildError CMakeBuilder :=
  mkCMakeVariant build_dir (mingwConfigTail env fs pfx)

/-- CMakeClangBuilder's resolution of clang and clang++: with a truthy prefix
the source CONCATENATES the prefix string with the compiler name
(Path(compiler_prefix + compiler_c)); with the LLVM environment root it
joins root / bin / compiler. -/
def clangPaths (plat : Platform) (env : Env) (pfx : String) :
    Except BuildError (String × String) :=
  let compiler_c := match plat with
    | .win32 => "clang.exe"
    | .posix => "clang"
  let compiler_cpp := match plat with
    | .win32 => "clang++.exe"
    | .posix => "clang++"
  if pfx ≠ "" then
    .ok (pfx ++ compiler_c, pfx ++ compiler_cpp)
  else
    match env "LLVM" with
    | none => .error (.environmentError "LLVM environment variable is not set")
    | some llvm =>
      if llvm = "" then
        .error (.environmentError "LLVM environment variable is not set")
      else
        .ok (pathJoin (pathJoin llvm "bin") compiler_c,
             pathJoin (pathJoin llvm "bin") compiler_cpp)

/-- CMakeClangBuilder._get_config_cmd: the C compiler path is checked for
existence first, then the C++ one. -/
def clangConfigTail (plat : Platform) (env : Env) (fs : FS) (pfx : String) :
    Except BuildError (List String) := do
  let (c, cpp) ← clangPaths plat env pfx
  if !(fsExists fs c) then
    .error (.fileNotFoundError (c ++ " does not exist"))
  else if !(fsExists fs cpp) then
    .error (.fileNotFoundError (cpp ++ " does not exist"))
  else
    .ok ["-G", "Ninja",
         "-DCMAKE_C_COMPILER:FILEPATH=" ++ c,
         "-DCMAKE_CXX_COMPILER:FILEPATH=" ++ cpp]

/-- CMakeClangBuilder.__init__. -/
def mkCMakeClangBuilder (plat : Platform) (env : Env) (fs : FS) (build_dir pfx : String) :
    Except BuildError CMakeBuilder :=
  mkCMakeVariant build_dir (clangConfigTail plat env fs pfx)

/-- CMakeGccBuilder's resolution of gcc and g++: with a truthy prefix the
source CONCATENATES the prefix string with the compiler name
(Path(compiler_prefix + compiler_c)); with the GCC environment root it joins
root / bin / compiler. -/
def gccPaths (env : Env) (pfx : String) : Except BuildError (String × String) :=
  let compiler_c := "gcc"
  let compiler_cpp := "g++"
  if pfx ≠ "" then
    .ok (pfx ++ compiler_c, pfx ++ compiler_cpp)
  else
    match env "GCC" with
    | none => .error (.environmentError "GCC environment variable is not set")
    | some g =>
      if g = "" then
        .error (.environmentError "GCC environment variable is not set")
      else
        .ok (pathJoin (pathJoin g "bin") compiler_c,
             pathJoin (pathJoin g "bin") compiler_cpp)

/-- CMakeGccBuilder._get_config_cmd. -/
def gccConfigTail (env : Env) (fs : FS) (pfx : String) :
    Except BuildError (List String) := do
  let (c, cpp) ← gccPaths env pfx
  if !(fsExists fs c) then
    .error (.fileNotFoundError (c ++ " does not exist"))
  else if !(fsExists fs cpp) then
    .error (.fileNotFoundError (cpp ++ " does not exist"))
  else
    .ok ["-G", "Ninja",
         "-DCMAKE_C_COMPILER:FILEPATH=" ++ c,
         "-DCMAKE_CXX_COMPILER:FILEPATH=" ++ cpp]

/-- CMakeGccBuilder.__init__. -/
def mkCMakeGccBuilder (env : Env) (fs : FS) (build_dir pfx : String) :
    Except BuildError CMakeBuilder :=
  mkCMakeVariant build_dir (gccConfigTail env fs pfx)

/-- CMakeAndroidBuilder's resolution of android.toolchain.cmake under
root-or-prefix / build / cmake. -/
def androidToolchainPath (env : Env) (pfx : String) : Except BuildError String :=
  if pfx ≠ "" then
    .ok (pathJoin (pathJoin (pathJoin pfx "build") "cmake") "android.toolchain.cmake")
  else
    match env "ANDROID_NDK" with
    | none => .error (.environmentError "ANDROID_NDK environment variable is not set")
    | some a =>
      if a = "" then
        .error (.environmentError "ANDROID_NDK environment variable is not set")
      else
        .ok (pathJoin (pathJoin (pathJoin a "build") "cmake") "android.toolchain.cmake")

/-- CMakeAndroidBuilder._get_config_cmd. -/
def androidConfigTail (env : Env) (fs : FS) (pfx : String) :
    Except BuildError (List String) := do
  let t ← androidToolchainPath env pfx
  if !(fsExists fs t) then
    .error (.fileNotFoundError (t ++ " does not exist"))
  else
    .ok ["-G", "Ninja",
         "-DCMAKE_TOOLCHAIN_FILE=" ++ t,
         "-DANDROID_ABI=arm64-v8a",
         "-DANDROID_STL=c++_shared",
         "-DANDROID_PLATFORM=android-31"]

/-- CMakeAndroidBuilder.__init__. -/
def mkCMakeAndroidBuilder (env : Env) (fs : FS) (build_dir pfx : String) :
    Except BuildError CMakeBuilder :=
  mkCMakeVariant build_dir (androidConfigTail env fs pfx)

/-- CMakeOhosBuilder's resolution of ohos.toolchain.cmake under
root-or-prefix / build / cmake, with the OHOS_SDK variable. -/
def ohosToolchainPath (env : Env) (pfx : String) : Except BuildError String :=
  if pfx ≠ "" then
    .ok (pathJoin (pathJoin (pathJoin pfx "build") "cmake") "ohos.toolchain.cmake")
  else
    match env "OHOS_SDK" with
    | none => .error (.environmentError "OHOS_SDK environment variable is not set")
    | some a =>
      if a = "" then
        .error (.environmentError "OHOS_SDK environment variable is not set")
      else
        .ok (pathJoin (pathJoin (pathJoin a "build") "cmake") "ohos.toolchain.cmake")

/-- CMakeOhosBuilder._get_config_cmd. -/
def ohosConfigTail (env : Env) (fs : FS) (pfx : String) :
    Except BuildError (List String) := do
  let t ← ohosToolchainPath env pfx
  if !(fsExists fs t) then
    .error (.fileNotFoundError (t ++ " does not exist"))
  else
    .ok ["-G", "Ninja",
         "-DCMAKE_TOOLCHAIN_FILE=" ++ t,
         "-DANDROID_ABI=arm64-v8a",
         "-DANDROID_STL=c++_shared",
         "-DANDROID_PLATFORM=OHOS"]

/-- CMakeOhosBuilder.__init__. -/
def mkCMakeOhosBuilder (env : Env) (fs : FS) (build_dir pfx : String) :
    Except BuildError CMakeBuilder :=
  mkCMakeVariant build_dir (ohosConfigTail env fs pfx)

/-- NdkBuilder.build: one command, the stored invocation with the caller's
options appended (None is modelled as the empty list, as `build_options or []`
makes the two coincide).  The state is returned alongside the issued command
lines; the method reads but never assigns its fields. -/
def NdkBuilder.build (b : NdkBuilder) (build_options : List String) :
    NdkBuilder × List (List String) :=
  (b, [b.build_cmd ++ build_options])

/-- CMakeBuilder.build: configure (with the caller's options appended) then
build, both issued on every call. -/
def CMakeBuilder.build (b : CMakeBuilder) (build_options : List String) :
    CMakeBuilder × List (List String) :=
  (b, [b.config_cmd ++ build_options, b.build_cmd])

/-- The builder-kind enumeration (class BuilderType). -/
inductive BuilderType where
  | NDK
  | CMAKE_WINDOWS_VS_MSVC
  | CMAKE_WINDOWS_MINGW
  | CMAKE_CLANG
  | CMAKE_GCC
  | CMAKE_ANDROID
  | CMAKE_OHOS
deriving DecidableEq

/-- Which enumeration member a constructed builder corresponds to. -/
def Builder.tag : Builder → BuilderType
  | .ndk _ => .NDK
  | .msvc _ => .CMAKE_WINDOWS_VS_MSVC
  | .mingw _ => .CMAKE_WINDOWS_MINGW
  | .clang _ => .CMAKE_CLANG
  | .gcc _ => .CMAKE_GCC
  | .android _ => .CMAKE_ANDROID
  | .ohos _ => .CMAKE_OHOS

/-- The value passed to the factory: a member of the enumeration, or any
other value (whose textual representation is kept for the error message). -/
inductive Selector where
  | known (t : BuilderType)
  | invalid (s : String)
deriving DecidableEq

/-- BuilderFactory.create: the if/elif dispatch over the builder type; the
MSVC branch does not pass the prefix through; any value outside the
enumeration reaches the else branch and is a ValueError. -/
def BuilderFactory.create (plat : Platform) (env : Env) (fs : FS)
    (sel : Selector) (build_dir pfx : String) : Except BuildError Builder :=
  match sel with
  | .known .NDK => (mkNdkBuilder plat env fs build_dir pfx).map Builder.ndk
  | .known .CMAKE_WINDOWS_VS_MSVC => .ok (Builder.msvc (mkCMakeWindowsVsMsvcBuilder build_dir))
  | .known .CMAKE_WINDOWS_MINGW => (mkCMakeWindowsMingwBuilder env fs build_dir pfx).map Builder.mingw
  | .known .CMAKE_CLANG => (mkCMakeClangBuilder plat env fs build_dir pfx).map Builder.clang
  | .known .CMAKE_GCC => (mkCMakeGccBuilder env fs build_dir pfx).map Builder.gcc
  | .known .CMAKE_ANDROID => (mkCMakeAndroidBuilder env fs build_dir pfx).map Builder.android
  | .known .CMAKE_OHOS => (mkCMakeOhosBuilder env fs build_dir pfx).map Builder.ohos
  | .invalid s => .error (.valueError ("Invalid builder type: " ++ s))

/-- Outcome of attempting to start and wait for the child process. -/
inductive ProcOutcome where
  | exited (code : Nat) (stdout stderr : String)
  | launchFailure (msg : String)
deriving DecidableEq

/-- What a run_cmd call does to the calling process: return normally having
printed some lines, terminate the process via sys.exit, or let an exception
escape uncaught. -/
inductive RunResult where
  | ok (printed : List String)
  | fatalExit (exitCode : Nat) (printed : List String)
  | uncaught (msg : String)
deriving DecidableEq

/-- runCmd (the source function run_cmd): subprocess.run with check=True raises CalledProcessError exactly
on a non-zero exit, which the except clause turns into two diagnostic prints
and sys.exit(1); a zero exit prints the captured stdout; a launch failure
(OSError) is NOT caught by `except subprocess.CalledProcessError` and
escapes. -/
def runCmd (args : List String) (outcome : ProcOutcome) : RunResult :=
  match outcome with
  | .exited 0 out _ => .ok [out]
  | .exited (_ + 1) _ err =>
      .fatalExit 1 ["命令执行失败: " ++ String.intercalate " " args,
                    "错误输出: " ++ err]
  | .launchFailure m => .uncaught m

end BuilderSpec

namespace BuilderSpec

/-- An empty process environment: every variable is unset. -/
def env0 : Env := fun _ => none

/-- The environment of the NDK scenario: ANDROID_NDK=/opt/ndk, nothing else. -/
def envNdk : Env := fun v => if v = "ANDROID_NDK" then some "/opt/ndk" else none

/-- The filesystem of the NDK scenario: an executable at /opt/ndk/ndk-build. -/
def fsNdk : FS := ["/opt/ndk/ndk-build"]

/-- Reduction of the monadic bind on an error, as produced by do-notation. -/
theorem exceptBind_error {α β : Type} (e : BuildError) (f : α → Except BuildError β) :
    (Except.error e : Except BuildError α) >>= f = .error e := rfl

/-- Reduction of the monadic bind on a success, as produced by do-notation. -/
theorem exceptBind_ok {α β : Type} (a : α) (f : α → Except BuildError β) :
    (Except.ok a : Except BuildError α) >>= f = f a := rfl

/-- Inversion for Except.map in a construction result. -/
theorem exceptMap_ok {α β : Type} {f : α → β} {x : Except BuildError α} {b : β}
    (h : x.map f = .ok b) : ∃ a, x = .ok a ∧ b = f a := by
  cases x with
  | error e => simp [Except.map] at h
  | ok a =>
    refine ⟨a, rfl, ?_⟩
    simp [Except.map] at h
    exact h.symm

/-- Inversion for the common CMake-subclass construction shape. -/
theorem mkCMakeVariant_ok {build_dir : String} {tailE : Except BuildError (List String)}
    {b : CMakeBuilder} (h : mkCMakeVariant build_dir tailE = .ok b) :
    ∃ t, tailE = .ok t ∧
      b = { build_dir := build_dir,
            config_cmd := ["cmake", "-B", build_dir] ++ t,
            build_cmd := ["cmake", "--build", build_dir] } := by
  cases tailE with
  | error e => simp [mkCMakeVariant, cmakeBase, exceptBind_error] at h
  | ok t =>
    refine ⟨t, rfl, ?_⟩
    simp only [mkCMakeVariant, cmakeBase, exceptBind_ok, Except.ok.injEq] at h
    simp [← h]

end BuilderSpec

namespace BuilderSpec

/-- After rmtree, no entry equal to or below the directory remains. -/
theorem rmtree_removes (fs : FS) (dir : String) :
    dirExists (rmtree fs dir) dir = false := by
  induction fs with
  | nil => rfl
  | cons q r ih =>
    simp only [rmtree]
    split
    · exact ih
    · rename_i hq
      simp only [dirExists, Bool.or_eq_false_iff]
      exact ⟨Bool.not_eq_true _ ▸ Bool.of_not_eq_true hq, ih⟩

/-- rmtree on a filesystem with nothing at or below the directory is the
identity. -/
theorem rmtree_absent_id (fs : FS) (dir : String) (h : dirExists fs dir = false) :
    rmtree fs dir = fs := by
  induction fs with
  | nil => rfl
  | cons q r ih =>
    simp only [dirExists, Bool.or_eq_false_iff] at h
    simp [rmtree, h.1, ih h.2]

/-- rmtree leaves every path outside the removed directory untouched. -/
theorem rmtree_frame (fs : FS) (dir p : String) (hp : underDir dir p = false) :
    fsExists (rmtree fs dir) p = fsExists fs p := by
  induction fs with
  | nil => rfl
  | cons q r ih =>
    simp only [rmtree]
    split
    · rename_i hq
      have hqp : (q == p) = false := by
        cases hb : (q == p) with
        | false => rfl
        | true =>
          have : q = p := eq_of_beq hb
          rw [this] at hq
          rw [hq] at hp
          exact absurd hp (by simp)
      simp [fsExists, hqp, ih]
    · simp [fsExists, ih]

/-- C5: for every builder and filesystem, clean never raises (it is a total
function on the filesystem model, mirroring ignore_errors=True): when
nothing exists at or below the build directory it returns the filesystem
unchanged, and when the build directory exists it removes the whole tree, so
that afterwards the path no longer exists; everything outside the build
directory is untouched.  Construction of the model never consults a
subprocess, and clean issues no command. -/
theorem clean_total_and_removes (b : Builder) (fs : FS) :
    (dirExists fs (Builder.buildDir b) = false → Builder.clean b fs = fs) ∧
    dirExists (Builder.clean b fs) (Builder.buildDir b) = false ∧
    (∀ p, underDir (Builder.buildDir b) p = false →
      fsExists (Builder.clean b fs) p = fsExists fs p) :=
  ⟨fun h => rmtree_absent_id fs _ h,
   rmtree_removes fs _,
   fun p hp => rmtree_frame fs _ p hp⟩

/-- Witness for C5 at a concrete builder and two concrete filesystems. -/
theorem clean_total_and_removes_witness :
    Builder.clean (Builder.msvc (mkCMakeWindowsVsMsvcBuilder "/tmp/out")) ["/other"] = ["/other"] ∧
    dirExists
      (Builder.clean (Builder.msvc (mkCMakeWindowsVsMsvcBuilder "/tmp/out"))
        ["/tmp/out", "/tmp/out/a.o", "/other"]) "/tmp/out" = false :=
  ⟨(clean_total_and_removes (Builder.msvc (mkCMakeWindowsVsMsvcBuilder "/tmp/out"))
      ["/other"]).1 (by decide),
   (clean_total_and_removes (Builder.msvc (mkCMakeWindowsVsMsvcBuilder "/tmp/out"))
      ["/tmp/out", "/tmp/out/a.o", "/other"]).2.1⟩

/-- C9: the MSVC variant ignores the compiler prefix argument: for any build
directory and any two prefixes, the factory produces builders with identical
configure and build command lines, namely the fixed MSVC ones. -/
theorem msvc_unaffected_by_pfx (plat : Platform) (env : Env) (fs : FS)
    (dir p1 p2 : String) :
    BuilderFactory.create plat env fs (.known .CMAKE_WINDOWS_VS_MSVC) dir p1 =
      BuilderFactory.create plat env fs (.known .CMAKE_WINDOWS_VS_MSVC) dir p2 ∧
    BuilderFactory.create plat env fs (.known .CMAKE_WINDOWS_VS_MSVC) dir p1 =
      .ok (Builder.msvc
        { build_dir := dir,
          config_cmd := ["cmake", "-B", dir, "-G", "Visual Studio 17 2022"],
          build_cmd := ["cmake", "--build", dir] }) :=
  ⟨rfl, rfl⟩

/-- C10: build reads but never writes the builder state: the state returned
by a build call is the argument itself, and hence a repeated call with the
same options issues the same command lines. -/
theorem build_preserves_state (bn : NdkBuilder) (bc : CMakeBuilder)
    (opts : List String) :
    (NdkBuilder.build bn opts).1 = bn ∧
    (CMakeBuilder.build bc opts).1 = bc ∧
    (NdkBuilder.build ((NdkBuilder.build bn opts).1) opts).2 =
      (NdkBuilder.build bn opts).2 ∧
    (CMakeBuilder.build ((CMakeBuilder.build bc opts).1) opts).2 =
      (CMakeBuilder.build bc opts).2 :=
  ⟨rfl, rfl, rfl, rfl⟩

end BuilderSpec

namespace BuilderSpec

/-- A required environment variable is missing in the Python sense of
`if not os.environ.get(v)`: unset or set to the empty string. -/
def envMissing (env : Env) (v : String) : Prop :=
  env v = none ∨ env v = some ""

/-- C6: each variant that needs an environment variable (NdkBuilder and
CMakeAndroidBuilder: ANDROID_NDK; MinGW: MinGW; Clang: LLVM; GCC: GCC;
OHOS: OHOS_SDK), constructed through the factory with an empty prefix while
that variable is unset or empty, fails with the EnvironmentError naming the
variable.  The error is a construction result: in this model construction
produces no command at all, so no subprocess is ever reached. -/
theorem construct_env_errors (plat : Platform) (env : Env) (fs : FS) (dir : String)
    (hndk : envMissing env "ANDROID_NDK") (hmingw : envMissing env "MinGW")
    (hllvm : envMissing env "LLVM") (hgcc : envMissing env "GCC")
    (hohos : envMissing env "OHOS_SDK") :
    BuilderFactory.create plat env fs (.known .NDK) dir "" =
      .error (.environmentError "ANDROID_NDK environment variable is not set") ∧
    BuilderFactory.create plat env fs (.known .CMAKE_WINDOWS_MINGW) dir "" =
      .error (.environmentError "MinGW environment variable is not set") ∧
    BuilderFactory.create plat env fs (.known .CMAKE_CLANG) dir "" =
      .error (.environmentError "LLVM environment variable is not set") ∧
    BuilderFactory.create plat env fs (.known .CMAKE_GCC) dir "" =
      .error (.environmentError "GCC environment variable is not set") ∧
    BuilderFactory.create plat env fs (.known .CMAKE_ANDROID) dir "" =
      .error (.environmentError "ANDROID_NDK environment variable is not set") ∧
    BuilderFactory.create plat env fs (.known .CMAKE_OHOS) dir "" =
      .error (.environmentError "OHOS_SDK environment variable is not set") := by
  refine ⟨?_, ?_, ?_, ?_, ?_, ?_⟩
  · rcases hndk with h | h <;>
      simp [BuilderFactory.create, mkNdkBuilder, ndkBuildCmd, ndkCompilerPath, h,
        exceptBind_error, Except.map]
  · rcases hmingw with h | h <;>
      simp [BuilderFactory.create, mkCMakeWindowsMingwBuilder, mkCMakeVariant,
        mingwConfigTail, mingwMakePath, h, exceptBind_error, Except.map]
  · rcases hllvm with h | h <;>
      simp [BuilderFactory.create, mkCMakeClangBuilder, mkCMakeVariant,
        clangConfigTail, clangPaths, h, exceptBind_error, Except.map]
  · rcases hgcc with h | h <;>
      simp [BuilderFactory.create, mkCMakeGccBuilder, mkCMakeVariant,
        gccConfigTail, gccPaths, h, exceptBind_error, Except.map]
  · rcases hndk with h | h <;>
      simp [BuilderFactory.create, mkCMakeAndroidBuilder, mkCMakeVariant,
        androidConfigTail, androidToolchainPath, h, exceptBind_error, Except.map]
  · rcases hohos with h | h <;>
      simp [BuilderFactory.create, mkCMakeOhosBuilder, mkCMakeVariant,
        ohosConfigTail, ohosToolchainPath, h, exceptBind_error, Except.map]

/-- Witness for C6 in the empty environment. -/
theorem construct_env_errors_witness :
    BuilderFactory.create .posix env0 [] (.known .NDK) "/tmp/out" "" =
      .error (.environmentError "ANDROID_NDK environment variable is not set") ∧
    BuilderFactory.create .posix env0 [] (.known .CMAKE_WINDOWS_MINGW) "/tmp/out" "" =
      .error (.environmentError "MinGW environment variable is not set") ∧
    BuilderFactory.create .posix env0 [] (.known .CMAKE_CLANG) "/tmp/out" "" =
      .error (.environmentError "LLVM environment variable is not set") ∧
    BuilderFactory.create .posix env0 [] (.known .CMAKE_GCC) "/tmp/out" "" =
      .error (.environmentError "GCC environment variable is not set") ∧
    BuilderFactory.create .posix env0 [] (.known .CMAKE_ANDROID) "/tmp/out" "" =
      .error (.environmentError "ANDROID_NDK environment variable is not set") ∧
    BuilderFactory.create .posix env0 [] (.known .CMAKE_OHOS) "/tmp/out" "" =
      .error (.environmentError "OHOS_SDK environment variable is not set") :=
  construct_env_errors .posix env0 [] "/tmp/out"
    (Or.inl rfl) (Or.inl rfl) (Or.inl rfl) (Or.inl rfl) (Or.inl rfl)

end BuilderSpec

namespace BuilderSpec

/-- C7: for each variant that resolves a toolchain path, when a non-empty
prefix is supplied and the resolved candidate path does not exist on the
filesystem, factory construction fails with the FileNotFoundError naming the
exact path attempted (for Clang and GCC the C compiler path is checked
first).  Construction in this model produces no command, so no subprocess is
invoked. -/
theorem construct_notfound_errors (env : Env) (fs : FS) (dir p : String)
    (hp : p ≠ "")
    (h1 : fsExists fs (pathJoin p "ndk-build") = false)
    (h2 : fsExists fs (pathJoin p "mingw32-make.exe") = false)
    (h3 : fsExists fs (p ++ "clang") = false)
    (h4 : fsExists fs (p ++ "gcc") = false)
    (h5 : fsExists fs
      (pathJoin (pathJoin (pathJoin p "build") "cmake") "android.toolchain.cmake") = false)
    (h6 : fsExists fs
      (pathJoin (pathJoin (pathJoin p "build") "cmake") "ohos.toolchain.cmake") = false) :
    BuilderFactory.create .posix env fs (.known .NDK) dir p =
      .error (.fileNotFoundError (pathJoin p "ndk-build" ++ " does not exist")) ∧
    BuilderFactory.create .posix env fs (.known .CMAKE_WINDOWS_MINGW) dir p =
      .error (.fileNotFoundError (pathJoin p "mingw32-make.exe" ++ " does not exist")) ∧
    BuilderFactory.create .posix env fs (.known .CMAKE_CLANG) dir p =
      .error (.fileNotFoundError (p ++ "clang" ++ " does not exist")) ∧
    BuilderFactory.create .posix env fs (.known .CMAKE_GCC) dir p =
      .error (.fileNotFoundError (p ++ "gcc" ++ " does not exist")) ∧
    BuilderFactory.create .posix env fs (.known .CMAKE_ANDROID) dir p =
      .error (.fileNotFoundError
        (pathJoin (pathJoin (pathJoin p "build") "cmake") "android.toolchain.cmake" ++
          " does not exist")) ∧
    BuilderFactory.create .posix env fs (.known .CMAKE_OHOS) dir p =
      .error (.fileNotFoundError
        (pathJoin (pathJoin (pathJoin p "build") "cmake") "ohos.toolchain.cmake" ++
          " does not exist")) := by
  refine ⟨?_, ?_, ?_, ?_, ?_, ?_⟩
  · simp [BuilderFactory.create, mkNdkBuilder, ndkBuildCmd, ndkCompilerPath, hp, h1,
      exceptBind_ok, exceptBind_error, Except.map]
  · simp [BuilderFactory.create, mkCMakeWindowsMingwBuilder, mkCMakeVariant,
      mingwConfigTail, mingwMakePath, hp, h2, exceptBind_ok, exceptBind_error, Except.map]
  · simp [BuilderFactory.create, mkCMakeClangBuilder, mkCMakeVariant,
      clangConfigTail, clangPaths, hp, h3, exceptBind_ok, exceptBind_error, Except.map]
  · simp [BuilderFactory.create, mkCMakeGccBuilder, mkCMakeVariant,
      gccConfigTail, gccPaths, hp, h4, exceptBind_ok, exceptBind_error, Except.map]
  · simp [BuilderFactory.create, mkCMakeAndroidBuilder, mkCMakeVariant,
      androidConfigTail, androidToolchainPath, hp, h5,
      exceptBind_ok, exceptBind_error, Except.map]
  · simp [BuilderFactory.create, mkCMakeOhosBuilder, mkCMakeVariant,
      ohosConfigTail, ohosToolchainPath, hp, h6,
      exceptBind_ok, exceptBind_error, Except.map]

/-- Witness for C7: the prefix /x on an empty filesystem. -/
theorem construct_notfound_errors_witness :
    BuilderFactory.create .posix env0 [] (.known .NDK) "/tmp/out" "/x" =
      .error (.fileNotFoundError (pathJoin "/x" "ndk-build" ++ " does not exist")) ∧
    BuilderFactory.create .posix env0 [] (.known .CMAKE_WINDOWS_MINGW) "/tmp/out" "/x" =
      .error (.fileNotFoundError (pathJoin "/x" "mingw32-make.exe" ++ " does not exist")) ∧
    BuilderFactory.create .posix env0 [] (.known .CMAKE_CLANG) "/tmp/out" "/x" =
      .error (.fileNotFoundError ("/x" ++ "clang" ++ " does not exist")) ∧
    BuilderFactory.create .posix env0 [] (.known .CMAKE_GCC) "/tmp/out" "/x" =
      .error (.fileNotFoundError ("/x" ++ "gcc" ++ " does not exist")) ∧
    BuilderFactory.create .posix env0 [] (.known .CMAKE_ANDROID) "/tmp/out" "/x" =
      .error (.fileNotFoundError
        (pathJoin (pathJoin (pathJoin "/x" "build") "cmake") "android.toolchain.cmake" ++
          " does not exist")) ∧
    BuilderFactory.create .posix env0 [] (.known .CMAKE_OHOS) "/tmp/out" "/x" =
      .error (.fileNotFoundError
        (pathJoin (pathJoin (pathJoin "/x" "build") "cmake") "ohos.toolchain.cmake" ++
          " does not exist")) :=
  construct_notfound_errors env0 [] "/tmp/out" "/x" (by decide)
    rfl rfl rfl rfl rfl rfl

end BuilderSpec

namespace BuilderSpec

/-- C8: the factory dispatch is faithful: whenever create succeeds on a
member of the enumeration it returns the builder variant of exactly that
kind, and any selector value outside the enumeration yields the ValueError
of the else branch, before any builder construction is attempted. -/
theorem factory_dispatch (plat : Platform) (env : Env) (fs : FS) (dir p : String) :
    (∀ t b, BuilderFactory.create plat env fs (.known t) dir p = .ok b →
      Builder.tag b = t) ∧
    (∀ s, BuilderFactory.create plat env fs (.invalid s) dir p =
      .error (.valueError ("Invalid builder type: " ++ s))) := by
  constructor
  · intro t b h
    cases t with
    | NDK =>
      obtain ⟨a, _, hb⟩ := exceptMap_ok h
      simp [hb, Builder.tag]
    | CMAKE_WINDOWS_VS_MSVC =>
      simp only [BuilderFactory.create, Except.ok.injEq] at h
      simp [← h, Builder.tag]
    | CMAKE_WINDOWS_MINGW =>
      obtain ⟨a, _, hb⟩ := exceptMap_ok h
      simp [hb, Builder.tag]
    | CMAKE_CLANG =>
      obtain ⟨a, _, hb⟩ := exceptMap_ok h
      simp [hb, Builder.tag]
    | CMAKE_GCC =>
      obtain ⟨a, _, hb⟩ := exceptMap_ok h
      simp [hb, Builder.tag]
    | CMAKE_ANDROID =>
      obtain ⟨a, _, hb⟩ := exceptMap_ok h
      simp [hb, Builder.tag]
    | CMAKE_OHOS =>
      obtain ⟨a, _, hb⟩ := exceptMap_ok h
      simp [hb, Builder.tag]
  · intro s
    rfl

/-- Witness for C8: a successful MSVC dispatch and a rejected selector. -/
theorem factory_dispatch_witness :
    Builder.tag (Builder.msvc (mkCMakeWindowsVsMsvcBuilder "/tmp/out")) =
      BuilderType.CMAKE_WINDOWS_VS_MSVC ∧
    BuilderFactory.create .posix env0 [] (.invalid "42") "/tmp/out" "" =
      .error (.valueError ("Invalid builder type: " ++ "42")) :=
  ⟨(factory_dispatch .posix env0 [] "/tmp/out" "").1 .CMAKE_WINDOWS_VS_MSVC
      (Builder.msvc (mkCMakeWindowsVsMsvcBuilder "/tmp/out")) rfl,
   (factory_dispatch .posix env0 [] "/tmp/out" "").2 "42"⟩

/-- C1: every CMake-family variant successfully produced by the factory
issues, on each build call, exactly two commands in order: the stored
configure command with the caller's options appended, then the stored build
command, which is the fixed option-free cmake build invocation for the
build directory. -/
theorem cmake_build_two_commands (plat : Platform) (env : Env) (fs : FS)
    (dir p : String) (t : BuilderType) (ht : t ≠ BuilderType.NDK) (b : Builder)
    (hb : BuilderFactory.create plat env fs (.known t) dir p = .ok b)
    (opts : List String) :
    ∃ cb : CMakeBuilder, Builder.cmakeState b = some cb ∧
      (CMakeBuilder.build cb opts).2 = [cb.config_cmd ++ opts, cb.build_cmd] ∧
      ((CMakeBuilder.build cb opts).2).length = 2 ∧
      cb.build_cmd = ["cmake", "--build", dir] := by
  cases t with
  | NDK => exact absurd rfl ht
  | CMAKE_WINDOWS_VS_MSVC =>
    simp only [BuilderFactory.create, Except.ok.injEq] at hb
    refine ⟨mkCMakeWindowsVsMsvcBuilder dir, by simp [← hb, Builder.cmakeState], rfl, rfl, rfl⟩
  | CMAKE_WINDOWS_MINGW =>
    obtain ⟨a, ha, hba⟩ := exceptMap_ok hb
    obtain ⟨tl, _, hat⟩ := mkCMakeVariant_ok ha
    exact ⟨a, by simp [hba, Builder.cmakeState], rfl, rfl, by simp [hat]⟩
  | CMAKE_CLANG =>
    obtain ⟨a, ha, hba⟩ := exceptMap_ok hb
    obtain ⟨tl, _, hat⟩ := mkCMakeVariant_ok ha
    exact ⟨a, by simp [hba, Builder.cmakeState], rfl, rfl, by simp [hat]⟩
  | CMAKE_GCC =>
    obtain ⟨a, ha, hba⟩ := exceptMap_ok hb
    obtain ⟨tl, _, hat⟩ := mkCMakeVariant_ok ha
    exact ⟨a, by simp [hba, Builder.cmakeState], rfl, rfl, by simp [hat]⟩
  | CMAKE_ANDROID =>
    obtain ⟨a, ha, hba⟩ := exceptMap_ok hb
    obtain ⟨tl, _, hat⟩ := mkCMakeVariant_ok ha
    exact ⟨a, by simp [hba, Builder.cmakeState], rfl, rfl, by simp [hat]⟩
  | CMAKE_OHOS =>
    obtain ⟨a, ha, hba⟩ := exceptMap_ok hb
    obtain ⟨tl, _, hat⟩ := mkCMakeVariant_ok ha
    exact ⟨a, by simp [hba, Builder.cmakeState], rfl, rfl, by simp [hat]⟩

/-- Witness for C1 at the MSVC variant with one caller option. -/
theorem cmake_build_two_commands_witness :
    ∃ cb : CMakeBuilder,
      Builder.cmakeState (Builder.msvc (mkCMakeWindowsVsMsvcBuilder "/tmp/out")) = some cb ∧
      (CMakeBuilder.build cb ["-DFOO=1"]).2 = [cb.config_cmd ++ ["-DFOO=1"], cb.build_cmd] ∧
      ((CMakeBuilder.build cb ["-DFOO=1"]).2).length = 2 ∧
      cb.build_cmd = ["cmake", "--build", "/tmp/out"] :=
  cmake_build_two_commands .posix env0 [] "/tmp/out" "" .CMAKE_WINDOWS_VS_MSVC
    (by decide) (Builder.msvc (mkCMakeWindowsVsMsvcBuilder "/tmp/out")) rfl ["-DFOO=1"]

end BuilderSpec

namespace BuilderSpec

/-- The NDK builder of the spec scenario: build directory /tmp/out and the
ndk-build invocation resolved from ANDROID_NDK=/opt/ndk. -/
def ndkScenarioBuilder : NdkBuilder :=
  { build_dir := "/tmp/out",
    build_cmd := ["/opt/ndk/ndk-build", "V=1", "NDK_OUT=/tmp/out",
                  "NDK_LIBS_OUT=/tmp/out"] }

/-- Inversion for NdkBuilder construction: success means the resolved
ndk-build path existed and the stored command is exactly the invocation of
that path with the fixed tokens. -/
theorem mkNdkBuilder_ok {plat : Platform} {env : Env} {fs : FS}
    {dir pfx : String} {b : NdkBuilder}
    (h : mkNdkBuilder plat env fs dir pfx = .ok b) :
    ∃ cp, ndkCompilerPath plat env pfx = .ok cp ∧ fsExists fs cp = true ∧
      b = { build_dir := dir,
            build_cmd := [cp, "V=1", "NDK_OUT=" ++ dir, "NDK_LIBS_OUT=" ++ dir] } := by
  cases hc : ndkCompilerPath plat env pfx with
  | error e =>
    simp [mkNdkBuilder, ndkBuildCmd, hc, exceptBind_error] at h
  | ok cp =>
    cases hf : fsExists fs cp with
    | false =>
      simp [mkNdkBuilder, ndkBuildCmd, hc, hf, exceptBind_ok, exceptBind_error] at h
    | true =>
      refine ⟨cp, rfl, hf, ?_⟩
      simp only [mkNdkBuilder, ndkBuildCmd, hc, hf, exceptBind_ok, Bool.not_true,
        Bool.false_eq_true, if_false, Except.ok.injEq] at h
      simp [← h]

/-- C2: every NDK builder the factory successfully constructs issues exactly
one command per build call: the resolved ndk-build path, the fixed tokens
V=1, NDK_OUT=build_dir, NDK_LIBS_OUT=build_dir, then the caller's options;
in the concrete scenario ANDROID_NDK=/opt/ndk with /opt/ndk/ndk-build
present and build directory /tmp/out, the constructed command for the option
NDK_APPLICATION_MK=Application.mk is exactly the expected five tokens. -/
theorem ndk_build_single_command (plat : Platform) (env : Env) (fs : FS)
    (dir p : String) (b : NdkBuilder) (opts : List String)
    (hb : BuilderFactory.create plat env fs (.known .NDK) dir p = .ok (.ndk b)) :
    (∃ cp, ndkCompilerPath plat env p = .ok cp ∧ fsExists fs cp = true ∧
      b.build_cmd = [cp, "V=1", "NDK_OUT=" ++ dir, "NDK_LIBS_OUT=" ++ dir] ∧
      (NdkBuilder.build b opts).2 =
        [[cp, "V=1", "NDK_OUT=" ++ dir, "NDK_LIBS_OUT=" ++ dir] ++ opts] ∧
      ((NdkBuilder.build b opts).2).length = 1) ∧
    BuilderFactory.create .posix envNdk fsNdk (.known .NDK) "/tmp/out" "" =
      .ok (.ndk ndkScenarioBuilder) ∧
    (NdkBuilder.build ndkScenarioBuilder ["NDK_APPLICATION_MK=Application.mk"]).2 =
      [["/opt/ndk/ndk-build", "V=1", "NDK_OUT=/tmp/out", "NDK_LIBS_OUT=/tmp/out",
        "NDK_APPLICATION_MK=Application.mk"]] := by
  refine ⟨?_, rfl, rfl⟩
  obtain ⟨a, ha, hba⟩ := exceptMap_ok hb
  obtain ⟨cp, hc, hf, hshape⟩ := mkNdkBuilder_ok ha
  have hban : b = a := by
    cases hba with
    | refl => rfl
  refine ⟨cp, hc, hf, ?_, ?_, ?_⟩
  · rw [hban, hshape]
  · rw [hban, hshape]
    rfl
  · rfl

/-- Witness for C2 at the scenario inputs themselves. -/
theorem ndk_build_single_command_witness :
    ∃ cp, ndkCompilerPath .posix envNdk "" = .ok cp ∧ fsExists fsNdk cp = true ∧
      ndkScenarioBuilder.build_cmd =
        [cp, "V=1", "NDK_OUT=" ++ "/tmp/out", "NDK_LIBS_OUT=" ++ "/tmp/out"] ∧
      (NdkBuilder.build ndkScenarioBuilder ["NDK_APPLICATION_MK=Application.mk"]).2 =
        [[cp, "V=1", "NDK_OUT=" ++ "/tmp/out", "NDK_LIBS_OUT=" ++ "/tmp/out"] ++
          ["NDK_APPLICATION_MK=Application.mk"]] ∧
      ((NdkBuilder.build ndkScenarioBuilder
          ["NDK_APPLICATION_MK=Application.mk"]).2).length = 1 :=
  (ndk_build_single_command .posix envNdk fsNdk "/tmp/out" "" ndkScenarioBuilder
    ["NDK_APPLICATION_MK=Application.mk"] rfl).1

end BuilderSpec

namespace BuilderSpec

/-- Counterexample to C3: with the non-empty prefix /usr (no trailing
separator) on a filesystem where the concatenated paths exist, the Clang and
GCC variants resolve their compilers to /usrclang and /usrgcc — plain string
concatenation of the prefix with the compiler name — which differ from the
filesystem path join of the prefix with the name; the concatenated path even
reaches the generated configure tokens. -/
theorem prefix_concat_not_join_cex :
    clangPaths .posix env0 "/usr" = .ok ("/usrclang", "/usrclang++") ∧
    "/usrclang" ≠ pathJoin "/usr" "clang" ∧
    gccPaths env0 "/usr" = .ok ("/usrgcc", "/usrg++") ∧
    "/usrgcc" ≠ pathJoin "/usr" "gcc" ∧
    clangConfigTail .posix env0 ["/usrclang", "/usrclang++"] "/usr" =
      .ok ["-G", "Ninja",
           "-DCMAKE_C_COMPILER:FILEPATH=/usrclang",
           "-DCMAKE_CXX_COMPILER:FILEPATH=/usrclang++"] :=
  ⟨rfl, by decide, rfl, by decide, rfl⟩

/-- C3 as amended: with a non-empty prefix, NDK, MinGW, Android and OHOS
resolve their toolchain path as the path join of the prefix with the fixed
relative layout, but Clang and GCC resolve theirs as the plain string
concatenation of the prefix with the compiler names, with no separator
inserted. -/
theorem resolved_path_layout (env : Env) (p : String) (hp : p ≠ "") :
    ndkCompilerPath .posix env p = .ok (pathJoin p "ndk-build") ∧
    mingwMakePath env p = .ok (pathJoin p "mingw32-make.exe") ∧
    clangPaths .posix env p = .ok (p ++ "clang", p ++ "clang++") ∧
    gccPaths env p = .ok (p ++ "gcc", p ++ "g++") ∧
    androidToolchainPath env p =
      .ok (pathJoin (pathJoin (pathJoin p "build") "cmake") "android.toolchain.cmake") ∧
    ohosToolchainPath env p =
      .ok (pathJoin (pathJoin (pathJoin p "build") "cmake") "ohos.toolchain.cmake") := by
  simp [ndkCompilerPath, mingwMakePath, clangPaths, gccPaths,
    androidToolchainPath, ohosToolchainPath, hp]

/-- Witness for the amended C3 with the prefix /x. -/
theorem resolved_path_layout_witness :
    ndkCompilerPath .posix env0 "/x" = .ok (pathJoin "/x" "ndk-build") ∧
    mingwMakePath env0 "/x" = .ok (pathJoin "/x" "mingw32-make.exe") ∧
    clangPaths .posix env0 "/x" = .ok ("/x" ++ "clang", "/x" ++ "clang++") ∧
    gccPaths env0 "/x" = .ok ("/x" ++ "gcc", "/x" ++ "g++") ∧
    androidToolchainPath env0 "/x" =
      .ok (pathJoin (pathJoin (pathJoin "/x" "build") "cmake") "android.toolchain.cmake") ∧
    ohosToolchainPath env0 "/x" =
      .ok (pathJoin (pathJoin (pathJoin "/x" "build") "cmake") "ohos.toolchain.cmake") :=
  resolved_path_layout env0 "/x" (by decide)

/-- The failure-reporting behaviour C4 attributes to the Command Runner: on
any failure the attempted command line and the captured error stream are
printed and the process is terminated with a non-zero status. -/
def diagnosticFatal (args : List String) (errText : String) (r : RunResult) : Prop :=
  ∃ printed code, r = .fatalExit code printed ∧ code ≠ 0 ∧
    ("命令执行失败: " ++ String.intercalate " " args) ∈ printed ∧
    ("错误输出: " ++ errText) ∈ printed

/-- C4 exactly as stated, over the runner embedding: success prints the
captured standard output and returns normally; a non-zero exit or a launch
failure prints the attempted command and the captured error stream and
terminates the process with a non-zero status. -/
def runnerClaimC4 : Prop :=
  ∀ (args : List String) (o : ProcOutcome),
    (∀ out err, o = .exited 0 out err → runCmd args o = .ok [out]) ∧
    (∀ c out err, o = .exited (c + 1) out err →
      diagnosticFatal args err (runCmd args o)) ∧
    (∀ m, o = .launchFailure m →
      ∃ errText, diagnosticFatal args errText (runCmd args o))

/-- Counterexample to C4: on a launch failure (the only except clause catches
CalledProcessError, not OSError) the runner neither prints the command line
nor calls sys.exit; the exception escapes uncaught, refuting the
launch-failure half of the claim at the concrete command [/nonexistent]. -/
theorem runner_launch_failure_cex : ¬ runnerClaimC4 := by
  intro h
  obtain ⟨etext, printed, code, heq, -, -, -⟩ :=
    (h ["/nonexistent"] (.launchFailure "No such file or directory")).2.2
      "No such file or directory" rfl
  simp [runCmd] at heq

/-- C4 as amended: a zero exit prints the captured standard output and
returns normally; a non-zero exit prints the attempted command line and the
captured error stream and terminates the process with exit status 1; a
launch failure escapes the runner as an uncaught exception, with no
diagnostic printing and no sys.exit call. -/
theorem runner_behaviour (args : List String) (out err m : String) (c : Nat) :
    runCmd args (.exited 0 out err) = .ok [out] ∧
    runCmd args (.exited (c + 1) out err) =
      .fatalExit 1 ["命令执行失败: " ++ String.intercalate " " args,
                    "错误输出: " ++ err] ∧
    runCmd args (.launchFailure m) = .uncaught m :=
  ⟨rfl, rfl, rfl⟩

end BuilderSpec
